import Mathlib

/-
Shallow embedding of the test-case validation engine.

* `TestCaseValidator` models `src/src/validators/validator.py`
  (the structural validator: structure, content, sequence and
  conditional-rule checks over CSV rows).
* `ScenarioValidator` models `src/version4.1/schema/scenario_validator.py`
  (the semantic validator: scenario parsing and reconciliation checks).

CSV rows are modelled as association lists from column name to cell value,
mirroring the dicts produced by `csv.DictReader`: a column that is absent
from the CSV is an absent key, `row.get(k, d)` is lookup with default and
`row.get(k)` is an `Option`-valued lookup.
-/

/-- `leadsWith a b` models Python list/string prefix testing: true iff `b`
starts with `a` (character lists). -/
def leadsWith : List Char → List Char → Bool
  | [], _ => true
  | _ :: _, [] => false
  | a :: as, b :: bs => a == b && leadsWith as bs

/-- Substring containment on character lists: true iff `a` occurs
contiguously inside `b`.  Models Python `a in b` for strings. -/
def containsSub : List Char → List Char → Bool
  | a, [] => leadsWith a []
  | a, b :: bs => leadsWith a (b :: bs) || containsSub a bs

/-- Python `a in b` on strings (substring containment). -/
def strIn (a b : String) : Bool := containsSub a.data b.data

/-- Python `s.lower()` (ASCII case folding, which covers every string this
code base manipulates). -/
def pyLower (s : String) : String := String.mk (s.data.map Char.toLower)

/-- Python `s.startswith(p)`. -/
def pyStartsWith (s p : String) : Bool := leadsWith p.data s.data

/-- Python `str(b)` on a boolean. -/
def pyBoolRepr (b : Bool) : String := if b then "True" else "False"

/-- A CSV row as produced by `csv.DictReader`: an association list from
column name to cell value. -/
abbrev Row := List (String × String)

/-- Python `row.get(k)`: `Option`-valued dict lookup. -/
def rowGet? (r : Row) (k : String) : Option String :=
  (r.find? (fun p => p.1 == k)).map Prod.snd

/-- Python `row.get(k, d)`: dict lookup with a default. -/
def rowGetD (r : Row) (k d : String) : String := (rowGet? r k).getD d

/-- Python `row.keys()`. -/
def rowKeys (r : Row) : List String := r.map Prod.fst

/-- Concatenation of the lists produced for each element, written out so
that induction proofs can unfold it directly. -/
def concatMap {α β : Type} (f : α → List β) : List α → List β
  | [] => []
  | x :: xs => f x ++ concatMap f xs

/-- Python `enumerate(rows, start=i)`. -/
def enumerateFrom {α : Type} (i : Nat) : List α → List (Nat × α)
  | [] => []
  | x :: xs => (i, x) :: enumerateFrom (i + 1) xs

namespace TestCaseValidator

/-- `ValidationSeverity` from validator.py. -/
inductive ValidationSeverity where
  | ERROR
  | WARNING
  | INFO
deriving DecidableEq, BEq

/-- `ValidationResult` from validator.py (`row` is 1-based, 0 for
file-level findings). -/
structure ValidationResult where
  severity : ValidationSeverity
  row : Nat
  field : String
  message : String
deriving DecidableEq, BEq

/-- `TestCaseValidator.REQUIRED_COLUMNS`. -/
def REQUIRED_COLUMNS : List String :=
  ["Group", "Element", "Action", "Value", "Strategy", "XPath"]

/-- `TestCaseValidator.VALID_ACTIONS`. -/
def VALID_ACTIONS : List String := ["click", "Input"]

/-- `TestCaseValidator.VALID_STRATEGIES`. -/
def VALID_STRATEGIES : List String :=
  ["id", "data-testid", "data-testid+text", "absolute", "name", "class", "text"]

/-- `TestCaseValidator.PAGE_ORDER`, the canonical page order. -/
def PAGE_ORDER : List String :=
  ["Contact Info", "Personal Information", "Documents", "Additional Details",
   "Other Products", "PEP / FATCA", "PDF / Other Details"]

/-- The Python `repr` of `PAGE_ORDER`, as interpolated into the sequence
error message. -/
def PAGE_ORDER_REPR : String :=
  "['Contact Info', 'Personal Information', 'Documents', 'Additional Details', 'Other Products', 'PEP / FATCA', 'PDF / Other Details']"

/-- `_validate_structure`: an ERROR for an empty CSV, otherwise one ERROR
for each required column that is absent from the first row's key set.
Later rows are never consulted. -/
def validate_structure (rows : List Row) : List ValidationResult :=
  match rows with
  | [] => [⟨.ERROR, 0, "file", "CSV is empty"⟩]
  | r :: _ =>
    REQUIRED_COLUMNS.filterMap (fun col =>
      if (rowKeys r).contains col then none
      else some ⟨.ERROR, 0, col, "Missing required column: " ++ col⟩)

/-- The findings `_validate_content` emits for one row (numbered
`row_num`), in source order: Action, Strategy, XPath (via
`_validate_xpath`, which only emits its leading-slash ERROR), empty Input
value, unknown Group.  Note the Group test is `group in p` only. -/
def content_row_results (row_num : Nat) (r : Row) : List ValidationResult :=
  let action := rowGetD r "Action" ""
  let strategy := rowGetD r "Strategy" ""
  let xpath := rowGetD r "XPath" ""
  let group := rowGetD r "Group" ""
  (if action != "" && !(VALID_ACTIONS.contains action) then
    [⟨.ERROR, row_num, "Action",
      "Invalid action '" ++ action ++ "'. Must be one of: ['click', 'Input']"⟩]
   else [])
  ++ (if strategy != "" && !(VALID_STRATEGIES.contains strategy) then
    [⟨.WARNING, row_num, "Strategy",
      "Unusual strategy '" ++ strategy ++ "'. Expected one of: ['id', 'data-testid', 'data-testid+text', 'absolute', 'name', 'class', 'text']"⟩]
   else [])
  ++ (if xpath != "" && !(pyStartsWith xpath "/") then
    [⟨.ERROR, row_num, "XPath",
      "XPath must start with '/': " ++ String.mk (xpath.data.take 50) ++ "..."⟩]
   else [])
  ++ (if action == "Input" && (rowGet? r "Value").getD "" == "" then
    [⟨.WARNING, row_num, "Value", "Input action with empty value"⟩]
   else [])
  ++ (if group != "" && !(PAGE_ORDER.any (fun p => strIn group p)) then
    [⟨.WARNING, row_num, "Group", "Unknown group/page: '" ++ group ++ "'"⟩]
   else [])

/-- `_validate_content`: per-row findings with rows numbered from 1. -/
def validate_content (rows : List Row) : List ValidationResult :=
  concatMap (fun p => content_row_results p.1 p.2) (enumerateFrom 1 rows)

/-- The page-index resolution loop of `_validate_sequence`: first page (in
canonical order) that matches `page in group or group in page`, else -1. -/
def page_index_from (g : String) : Nat → List String → Int
  | _, [] => -1
  | j, p :: ps => if strIn p g || strIn g p then (j : Int) else page_index_from g (j + 1) ps

/-- Resolve a Group value to its canonical page index (-1 if unresolved). -/
def page_index (g : String) : Int := page_index_from g 0 PAGE_ORDER

/-- The running-maximum update of `_validate_sequence`:
`current_page_index` is unchanged for unresolved rows and becomes
`max(current, resolved)` otherwise. -/
def seq_step (cur : Int) (g : String) : Int :=
  if page_index g == -1 then cur else max cur (page_index g)

/-- The loop body of `_validate_sequence`: an ERROR whenever a row's
resolved page index is strictly below the running maximum. -/
def validate_sequence_from (cur : Int) (i : Nat) : List Row → List ValidationResult
  | [] => []
  | r :: rs =>
    let group := rowGetD r "Group" ""
    let pi := page_index group
    (if pi ≠ -1 ∧ pi < cur then
      [⟨.ERROR, i, "Group",
        "Page '" ++ group ++ "' appears after a later page. Expected order: " ++ PAGE_ORDER_REPR⟩]
     else [])
    ++ validate_sequence_from (seq_step cur group) (i + 1) rs

/-- `_validate_sequence` (initial running maximum -1, rows numbered from 1). -/
def validate_sequence (rows : List Row) : List ValidationResult :=
  validate_sequence_from (-1) 1 rows

/-- The resolved page indices of a row sequence, unresolved rows skipped.
Used to state the ordering hypothesis of the sequence check. -/
def resolved_page_indices (rows : List Row) : List Int :=
  (rows.map (fun r => page_index (rowGetD r "Group" ""))).filter (fun x => x != -1)

/-- A conditional dependency rule from the rules document. -/
structure Rule where
  trigger_field : String
  trigger_value : Bool
  required_fields : List String
  excluded_fields : List String
deriving DecidableEq

/-- Python dict assignment `m[k] = v`: overwrite the entry if the key is
present, else append it. -/
def dict_set (m : List (String × Bool)) (k : String) (v : Bool) : List (String × Bool) :=
  if m.any (fun p => p.1 == k) then m.map (fun p => if p.1 == k then (k, v) else p)
  else m ++ [(k, v)]

/-- Python dict lookup `m[k]` / `k in m` combined into an `Option`. -/
def lookup_state (m : List (String × Bool)) (k : String) : Option Bool :=
  (m.find? (fun p => p.1 == k)).map Prod.snd

/-- Python `value in ['true', 'false', 'True', 'False']`. -/
def bool_literal (v : String) : Bool :=
  v == "true" || v == "false" || v == "True" || v == "False"

/-- The `boolean_states` dict of `_validate_conditionals`: for each row
with Action `Input` and a boolean literal Value, record
`lower(value) == 'true'` under the row's Element, later rows overwriting
earlier ones. -/
def boolean_states (rows : List Row) : List (String × Bool) :=
  rows.foldl (fun m r =>
    let element := rowGetD r "Element" ""
    let action := rowGetD r "Action" ""
    let value := rowGetD r "Value" ""
    if action == "Input" && bool_literal value then
      dict_set m element (pyLower value == "true")
    else m) []

/-- Membership of a field in `{row.get('Element', '') for row in rows}`. -/
def present_in_rows (rows : List Row) (f : String) : Bool :=
  rows.any (fun r => rowGetD r "Element" "" == f)

/-- One rule's findings in `_validate_conditionals`: if the trigger field
has a recorded state equal to the trigger value, warn for each required
field absent from the CSV; if it has a different recorded state, warn for
each excluded field present in the CSV.  All findings are WARNINGs with
row 0. -/
def check_rule (states : List (String × Bool)) (rows : List Row) (rule : Rule) :
    List ValidationResult :=
  match lookup_state states rule.trigger_field with
  | none => []
  | some actual_value =>
    if actual_value == rule.trigger_value then
      rule.required_fields.filterMap (fun req_field =>
        if present_in_rows rows req_field then none
        else some ⟨.WARNING, 0, req_field,
          "Field '" ++ req_field ++ "' may be required when '" ++ rule.trigger_field
            ++ "' is " ++ pyBoolRepr rule.trigger_value⟩)
    else
      rule.excluded_fields.filterMap (fun excl_field =>
        if present_in_rows rows excl_field then
          some ⟨.WARNING, 0, excl_field,
            "Field '" ++ excl_field ++ "' may not be needed when '" ++ rule.trigger_field
              ++ "' is " ++ pyBoolRepr actual_value⟩
        else none)

/-- `_validate_conditionals`: build the boolean-state dict once, then check
every rule against it. -/
def validate_conditionals (rules : List Rule) (rows : List Row) : List ValidationResult :=
  concatMap (check_rule (boolean_states rows) rows) rules

/-- The last-occurrence-wins reading of `boolean_states`: the record of the
last row with Action `Input` and a boolean-literal Value for the element.
Stated from the spec's description; proved equal to the dict built by the
code. -/
def last_bool_input (rows : List Row) (e : String) : Option Bool :=
  (rows.reverse.find? (fun r =>
      rowGetD r "Element" "" == e && rowGetD r "Action" "" == "Input"
        && bool_literal (rowGetD r "Value" ""))).map
    (fun r => pyLower (rowGetD r "Value" "") == "true")

/-- `validate_csv` on already-parsed rows: run the four checks in order and
pass iff no ERROR-severity result was produced. -/
def validate_csv (rules : List Rule) (rows : List Row) : Bool × List ValidationResult :=
  let results := validate_structure rows ++ validate_content rows
    ++ validate_sequence rows ++ validate_conditionals rules rows
  (!(results.any (fun v => v.severity == ValidationSeverity.ERROR)), results)

end TestCaseValidator

namespace ScenarioValidator

/-- `CheckResult` from scenario_validator.py. -/
inductive CheckResult where
  | PASS
  | FAIL
  | WARN
  | INFO
deriving DecidableEq, BEq

/-- `ValidationCheck` from scenario_validator.py. -/
structure ValidationCheck where
  name : String
  result : CheckResult
  expected : String
  actual : String
  details : String := ""
deriving DecidableEq, BEq

/-- `ScenarioRequirements` from scenario_validator.py: every field is
optional, absent meaning "not specified and not checked". -/
structure ScenarioRequirements where
  employment_status : Option String := none
  employer : Option String := none
  sector : Option String := none
  salary_range : Option String := none
  marital_status : Option String := none
  gender : Option String := none
  has_beneficiary : Option Bool := none
  beneficiary_count : Option Nat := none
  has_joint_partner : Option Bool := none
  joint_partner_count : Option Nat := none
  lincu_card : Option Bool := none
  fip_application : Option Bool := none
  fip_plan : Option String := none
  permanent_address_same : Option Bool := none
  all_pep_no : Option Bool := none
  all_fatca_no : Option Bool := none
  pep_positive_fields : List String := []
deriving DecidableEq

/-- `ScenarioValidator.EMPLOYMENT_KEYWORDS` in its insertion order. -/
def EMPLOYMENT_KEYWORDS : List (String × String) :=
  [("full-time permanent", "FULL TIME PERMANENT"),
   ("full-time temporary", "FULL TIME TEMPORARY"),
   ("part-time", "PART TIME"),
   ("self-employed", "SELF EMPLOYED"),
   ("unemployed", "UNEMPLOYED"),
   ("retired pensioned", "RETIRED PENSIONED"),
   ("retired non-pensioned", "RETIRED NON PENSIONED")]

/-- `ScenarioValidator.MARITAL_KEYWORDS` in its insertion order. -/
def MARITAL_KEYWORDS : List (String × String) :=
  [("single", "SINGLE"), ("married", "MARRIED"), ("divorced", "DIVORCED"),
   ("widowed", "WIDOWED"), ("common law", "COMMON LAW")]

/-- The first keyword (in table order) contained in the lowercased
scenario, mapped to its canonical label. -/
def first_keyword_match (tbl : List (String × String)) (s : String) : Option String :=
  (tbl.find? (fun p => strIn p.1 s)).map Prod.snd

/-- Python regex `\w` on the strings this code handles (ASCII). -/
def is_word_char (c : Char) : Bool := c.isAlphanum || c == '_'

/-- A regex `\b` position relative to the neighbouring character
(`none` = string edge). -/
def boundary_ok : Option Char → Bool
  | none => true
  | some c => !(is_word_char c)

/-- Try to strip `w` from the front of `s`; return the remainder. -/
def after_match : List Char → List Char → Option (List Char)
  | [], rest => some rest
  | _ :: _, [] => none
  | c :: cs, d :: ds => if c == d then after_match cs ds else none

/-- `re.search(r'\b<w>\b', s)`: scan every position, requiring word
boundaries on both sides of the literal `w`.  `prev` is the character
before the current position. -/
def word_search_from (w : List Char) : Option Char → List Char → Bool
  | prev, [] =>
    (match after_match w [] with
     | some rest => boundary_ok prev && boundary_ok rest.head?
     | none => false)
  | prev, c :: s2 =>
    (match after_match w (c :: s2) with
     | some rest => boundary_ok prev && boundary_ok rest.head?
     | none => false)
    || word_search_from w (some c) s2

/-- `re.search(r'\b<w>\b', s)` as used for the gender keywords. -/
def word_search (w s : String) : Bool := word_search_from w.data none s.data

/-- Python regex `\s` (the ASCII whitespace class). -/
def py_space (c : Char) : Bool :=
  c == ' ' || c == '\t' || c == '\n' || c == '\r' || c == '\x0b' || c == '\x0c'

/-- `int()` of a digit run. -/
def digits_to_nat (ds : List Char) : Nat :=
  ds.foldl (fun n c => n * 10 + (c.toNat - 48)) 0

/-- `re.search(r'(\d+)\s*<lit>', s)` for a literal `lit` that starts with a
letter (as `beneficiar` and `joint partner` do): the leftmost position
with a digit run followed by optional whitespace and the literal; the
captured group is the maximal digit run. -/
def num_before_search (lit : List Char) : List Char → Option Nat
  | [] => none
  | c :: rest =>
    if c.isDigit then
      let ds := (c :: rest).takeWhile Char.isDigit
      let tail2 := ((c :: rest).dropWhile Char.isDigit).dropWhile py_space
      if leadsWith lit tail2 then some (digits_to_nat ds)
      else num_before_search lit rest
    else num_before_search lit rest

/-- `re.search(r'(\d+)\s*<lit>', s)` returning the captured count. -/
def num_before (lit s : String) : Option Nat := num_before_search lit.data s.data

/-- `parse_scenario`: keyword extraction over the lowercased scenario
text, field by field in source order. -/
def parse_scenario (scenario : String) : ScenarioRequirements :=
  let sl := pyLower scenario
  let bens : Option Bool × Option Nat :=
    if strIn "no beneficiar" sl then (some false, some 0)
    else match num_before "beneficiar" sl with
      | some n => (some true, some n)
      | none => (none, none)
  let joints : Option Bool × Option Nat :=
    if strIn "no joint partner" sl then (some false, some 0)
    else match num_before "joint partner" sl with
      | some n => (some true, some n)
      | none => (none, none)
  let fips : Option Bool × Option String :=
    if strIn "no fip" sl || strIn "not applying for fip" sl then (some false, none)
    else if strIn "fip" sl then
      (some true,
        if strIn "plan a" sl then some "Plan A"
        else if strIn "plan b" sl then some "Plan B"
        else if strIn "plan c" sl then some "Plan C"
        else none)
    else (none, none)
  { employment_status := first_keyword_match EMPLOYMENT_KEYWORDS sl
    marital_status := first_keyword_match MARITAL_KEYWORDS sl
    gender :=
      if word_search "male" sl then some "male"
      else if word_search "female" sl then some "female"
      else none
    has_beneficiary := bens.1
    beneficiary_count := bens.2
    has_joint_partner := joints.1
    joint_partner_count := joints.2
    lincu_card :=
      if strIn "no lincu" sl || strIn "not applying for lincu" sl then some false
      else if strIn "lincu card" sl || strIn "applying for lincu" sl then some true
      else none
    fip_application := fips.1
    fip_plan := fips.2
    permanent_address_same :=
      if strIn "permanent address same" sl || strIn "same as mailing" sl then some true
      else if strIn "different" sl && strIn "address" sl then some false
      else none
    all_pep_no :=
      if strIn "pep/fatca" sl && strIn "no" sl then some true
      else if strIn "all pep" sl && strIn "no" sl then some true
      else none
    all_fatca_no :=
      if strIn "pep/fatca" sl && strIn "no" sl then some true
      else if strIn "all fatca" sl && strIn "no" sl then some true
      else none
    pep_positive_fields := [] }

/-- `get_field_value`: the Value of the first row whose Element matches
and whose Action is `Input`. -/
def get_field_value (rows : List Row) (element_name : String) : Option String :=
  match rows.find? (fun r =>
      rowGet? r "Element" == some element_name && rowGet? r "Action" == some "Input") with
  | some r => rowGet? r "Value"
  | none => none

/-- The click-XPath scan of `get_boolean_value`: the first matching click
row whose XPath mentions `label[1]` (true) or `label[2]` (false); rows
matching neither pattern are skipped. -/
def click_scan (element_name : String) : List Row → Option Bool
  | [] => none
  | r :: rs =>
    if rowGet? r "Element" == some element_name && rowGet? r "Action" == some "click" then
      let xpath := rowGetD r "XPath" ""
      if strIn "label[1]" xpath then some true
      else if strIn "label[2]" xpath then some false
      else click_scan element_name rs
    else click_scan element_name rs

/-- `get_boolean_value`: an explicit Input value (interpreted as
`lower(value) == 'true'`) takes precedence; otherwise infer from the
first click row's XPath. -/
def get_boolean_value (rows : List Row) (element_name : String) : Option Bool :=
  match get_field_value rows element_name with
  | some value => some (pyLower value == "true")
  | none => click_scan element_name rows

/-- `has_element`: any row (any action) with a matching Element. -/
def has_element (rows : List Row) (element_name : String) : Bool :=
  rows.any (fun r => rowGet? r "Element" == some element_name)

/-- `count_element_occurrences` for the literal patterns the validator
uses: a case-insensitive substring match against each row's Element. -/
def count_element_occurrences (rows : List Row) (pat : String) : Nat :=
  rows.countP (fun r => strIn (pyLower pat) (pyLower (rowGetD r "Element" "")))

/-- The scan of `get_selected_dropdown_value`: once a click row whose
Element contains the trigger text is seen, return the Element of the next
click row whose XPath contains `option`. -/
def dropdown_scan (trigger_text : String) : Bool → List Row → Option String
  | _, [] => none
  | found, r :: rs =>
    let element := rowGetD r "Element" ""
    let action := rowGetD r "Action" ""
    if strIn (pyLower trigger_text) (pyLower element) && action == "click" then
      dropdown_scan trigger_text true rs
    else if found && action == "click" && strIn "option" (pyLower (rowGetD r "XPath" "")) then
      some element
    else dropdown_scan trigger_text found rs

/-- `get_selected_dropdown_value`. -/
def get_selected_dropdown_value (rows : List Row) (trigger_text : String) : Option String :=
  dropdown_scan trigger_text false rows

/-- The six `expected_pages` of the page-coverage check. -/
def expected_pages : List String :=
  ["Contact Info", "Documents", "Additional Details", "Other Products",
   "PEP / FATCA", "PDF / Other Details"]

/-- An expected page is covered iff some row's Group matches it by
case-insensitive substring containment in either direction (this is
membership of the page in the code's `pages_normalized` set). -/
def page_covered (rows : List Row) (ep : String) : Bool :=
  rows.any (fun r =>
    let p := rowGetD r "Group" ""
    strIn (pyLower ep) (pyLower p) || strIn (pyLower p) (pyLower ep))

/-- `pages_normalized` as a sublist of `expected_pages`. -/
def covered_pages (rows : List Row) : List String := expected_pages.filter (page_covered rows)

/-- `missing_pages = expected_pages - pages_normalized`. -/
def missing_pages (rows : List Row) : List String :=
  expected_pages.filter (fun ep => !(page_covered rows ep))

/-- The "Row Count" INFO check (always emitted first). -/
def row_count_check (rows : List Row) : ValidationCheck :=
  { name := "Row Count", result := .INFO, expected := "100-400 typical",
    actual := Nat.repr rows.length, details := "Total rows in generated CSV" }

/-- The "Page Coverage" check: PASS iff no expected page is missing. -/
def page_coverage_check (rows : List Row) : ValidationCheck :=
  { name := "Page Coverage"
    result := if (missing_pages rows).isEmpty then .PASS else .FAIL
    expected := "All 6 pages"
    actual := Nat.repr (covered_pages rows).length ++ "/6 pages"
    details := if (missing_pages rows).isEmpty then "All pages covered"
               else "Missing: " ++ String.intercalate ", " (missing_pages rows) }

/-- The "Employment Status" check: dropdown value after the trigger must
contain the expected label (Python truthiness of the `and`-chain made
explicit). -/
def employment_check (rows : List Row) (es : String) : ValidationCheck :=
  let actual := get_selected_dropdown_value rows "Employment Status"
  let m := match actual with
    | none => false
    | some a => a != "" && strIn (pyLower es) (pyLower a)
  { name := "Employment Status", result := if m then .PASS else .FAIL, expected := es,
    actual := match actual with
      | some a => if a != "" then a else "Not found"
      | none => "Not found" }

/-- The "Marital Status" check, analogous to the employment check. -/
def marital_check (rows : List Row) (ms : String) : ValidationCheck :=
  let actual := get_selected_dropdown_value rows "Marital Status"
  let m := match actual with
    | none => false
    | some a => a != "" && strIn (pyLower ms) (pyLower a)
  { name := "Marital Status", result := if m then .PASS else .FAIL, expected := ms,
    actual := match actual with
      | some a => if a != "" then a else "Not found"
      | none => "Not found" }

/-- The "Has Beneficiary" check: boolean field, falling back to presence
of `beneficiaryMobileNo`. -/
def has_beneficiary_check (rows : List Row) (hb : Bool) : ValidationCheck :=
  let actual_value := match get_boolean_value rows "hasBeneficiary" with
    | some b => b
    | none => has_element rows "beneficiaryMobileNo"
  { name := "Has Beneficiary", result := if actual_value == hb then .PASS else .FAIL,
    expected := pyBoolRepr hb, actual := pyBoolRepr actual_value }

/-- The WARN-level "Beneficiary Count" check. -/
def beneficiary_count_check (rows : List Row) (n : Nat) : ValidationCheck :=
  let count := count_element_occurrences rows "beneficiaryMobileNo"
  { name := "Beneficiary Count", result := if count == n then .PASS else .WARN,
    expected := Nat.repr n, actual := Nat.repr count }

/-- The "Has Joint Partner" check: boolean field, falling back to presence
of `customerId`. -/
def has_joint_partner_check (rows : List Row) (hj : Bool) : ValidationCheck :=
  let actual_value := match get_boolean_value rows "hasJointPartner" with
    | some b => b
    | none => has_element rows "customerId"
  { name := "Has Joint Partner", result := if actual_value == hj then .PASS else .FAIL,
    expected := pyBoolRepr hj, actual := pyBoolRepr actual_value }

/-- Python `option == bool` where the option may be `None`. -/
def opt_eq_bool : Option Bool → Bool → Bool
  | some b, e => b == e
  | none, _ => false

/-- The "LinCU Card Application" check. -/
def lincu_check (rows : List Row) (e : Bool) : ValidationCheck :=
  let actual_value := get_boolean_value rows "isApplyingForLincuCardApplication"
  { name := "LinCU Card Application", result := if opt_eq_bool actual_value e then .PASS else .FAIL,
    expected := pyBoolRepr e,
    actual := match actual_value with
      | some b => pyBoolRepr b
      | none => "Not found" }

/-- The "FIP Application" check. -/
def fip_check (rows : List Row) (e : Bool) : ValidationCheck :=
  let actual_value := get_boolean_value rows "isApplyingForFipApplication"
  { name := "FIP Application", result := if opt_eq_bool actual_value e then .PASS else .FAIL,
    expected := pyBoolRepr e,
    actual := match actual_value with
      | some b => pyBoolRepr b
      | none => "Not found" }

/-- The eleven PEP boolean fields of the "All PEP Questions = No" check. -/
def pep_fields : List String :=
  ["isHeadOfState", "isHeadOfGovt", "isSenPolitician", "isSenGovtOfficial",
   "isSenJudicialOfficial", "isSenMilitaryOfficial", "isSenExecSOC", "isImpPPO",
   "isImmediateFamily", "isMemberOfSeniorManagement", "isPepAssociate"]

/-- The "All PEP Questions = No" check: FAIL iff some field resolves to
exactly `True`. -/
def all_pep_no_check (rows : List Row) : ValidationCheck :=
  let all_false := !(pep_fields.any (fun f => get_boolean_value rows f == some true))
  { name := "All PEP Questions = No", result := if all_false then .PASS else .FAIL,
    expected := "All False", actual := if all_false then "All False" else "Some True" }

/-- The five FATCA boolean fields of the "All FATCA Questions = No" check. -/
def fatca_fields : List String :=
  ["isCitizenOfOtherCountry", "isGreenCardHolder", "isGranteePOA",
   "hasStandingInstructIncome", "isDisclosureTaxResidency"]

/-- The "All FATCA Questions = No" check. -/
def all_fatca_no_check (rows : List Row) : ValidationCheck :=
  let all_false := !(fatca_fields.any (fun f => get_boolean_value rows f == some true))
  { name := "All FATCA Questions = No", result := if all_false then .PASS else .FAIL,
    expected := "All False", actual := if all_false then "All False" else "Some True" }

/-- The "OTP Verifications" check (always emitted last): PASS iff at least
two occurrences of `otp-input-0`, WARN otherwise. -/
def otp_check (rows : List Row) : ValidationCheck :=
  let otp_count := count_element_occurrences rows "otp-input-0"
  { name := "OTP Verifications",
    result := if 2 ≤ otp_count then .PASS else .WARN,
    expected := "2 (initial + final)", actual := Nat.repr otp_count }

/-- All checks emitted by `ScenarioValidator.validate`, in source order.
Conditional blocks reproduce Python truthiness: string requirements must
be non-empty, boolean requirements must be set (`is not None`), the
PEP/FATCA blocks additionally require the flag to be `True`. -/
def scenario_checks (rows : List Row) (scenario : String) : List ValidationCheck :=
  let req := parse_scenario scenario
  ([row_count_check rows, page_coverage_check rows]
   ++ (match req.employment_status with
       | some es => if es != "" then [employment_check rows es] else []
       | none => [])
   ++ (match req.marital_status with
       | some ms => if ms != "" then [marital_check rows ms] else []
       | none => [])
   ++ (match req.has_beneficiary with
       | some hb =>
         [has_beneficiary_check rows hb]
         ++ (match req.beneficiary_count with
             | some n => if 0 < n then [beneficiary_count_check rows n] else []
             | none => [])
       | none => [])
   ++ (match req.has_joint_partner with
       | some hj => [has_joint_partner_check rows hj]
       | none => [])
   ++ (match req.lincu_card with
       | some e => [lincu_check rows e]
       | none => [])
   ++ (match req.fip_application with
       | some e => [fip_check rows e]
       | none => [])
   ++ (match req.all_pep_no with
       | some true => [all_pep_no_check rows]
       | _ => [])
   ++ (match req.all_fatca_no with
       | some true => [all_fatca_no_check rows]
       | _ => []))
  ++ [otp_check rows]

/-- `ScenarioValidator.validate`: all checks pass iff the number of
FAIL-result checks is zero. -/
def validate (rows : List Row) (scenario : String) : Bool × List ValidationCheck :=
  let checks := scenario_checks rows scenario
  let fails := checks.countP (fun c => c.result == CheckResult.FAIL)
  (fails == 0, checks)

end ScenarioValidator

section ConcreteInputs

open TestCaseValidator ScenarioValidator

/-- A click row for `isHeadOfState` whose XPath selects the second label
(the "No" option). -/
def head_of_state_click : Row :=
  [("Group", "PEP / FATCA"), ("Element", "isHeadOfState"), ("Action", "click"),
   ("Value", ""), ("Strategy", "absolute"), ("XPath", "/html/body//label[2]")]

/-- An explicit Input row setting `isHeadOfState` to `true`. -/
def head_of_state_input : Row :=
  [("Group", "PEP / FATCA"), ("Element", "isHeadOfState"), ("Action", "Input"),
   ("Value", "true"), ("Strategy", "id"), ("XPath", "/html/body//input[1]")]

/-- A row whose Group strictly contains the canonical page name
`Contact Info` (so it matches bidirectionally but is not a substring of
any page name). -/
def group_cex_row : Row :=
  [("Group", "Contact Info Page"), ("Element", "btn"), ("Action", "click"),
   ("Value", ""), ("Strategy", "id"), ("XPath", "/html/body/button")]

/-- A row whose Group matches no canonical page name in either direction. -/
def c2_unknown_group_row : Row :=
  [("Group", "Nowhere Page"), ("Element", "e"), ("Action", "click"),
   ("Value", ""), ("Strategy", "id"), ("XPath", "/b")]

/-- The Bool-valued predicate "a WARNING on field Group for row `n`". -/
def group_warn_pred (n : Nat) (v : TestCaseValidator.ValidationResult) : Bool :=
  v.severity == TestCaseValidator.ValidationSeverity.WARNING
    && v.field == "Group" && v.row == n

/-- A three-row sequence with exactly one inversion: a Documents row
(page index 2) following an Additional Details row (page index 3). -/
def seq_inversion_rows : List Row :=
  [[("Group", "Contact Info"), ("Element", "a"), ("Action", "click"),
    ("Value", ""), ("Strategy", "id"), ("XPath", "/a")],
   [("Group", "Additional Details"), ("Element", "b"), ("Action", "click"),
    ("Value", ""), ("Strategy", "id"), ("XPath", "/b")],
   [("Group", "Documents"), ("Element", "c"), ("Action", "click"),
    ("Value", ""), ("Strategy", "id"), ("XPath", "/c")]]

/-- The single ERROR the sequence check emits on `seq_inversion_rows`. -/
def documents_seq_error : TestCaseValidator.ValidationResult :=
  ⟨.ERROR, 3, "Group",
   "Page 'Documents' appears after a later page. Expected order: "
     ++ TestCaseValidator.PAGE_ORDER_REPR⟩

/-- A two-row sequence whose resolved page indices are non-decreasing. -/
def seq_ordered_rows : List Row :=
  [[("Group", "Contact Info"), ("Element", "a"), ("Action", "click"),
    ("Value", ""), ("Strategy", "id"), ("XPath", "/a")],
   [("Group", "Documents"), ("Element", "b"), ("Action", "click"),
    ("Value", ""), ("Strategy", "id"), ("XPath", "/b")]]

/-- The FIP dependency rule of the rule-set document. -/
def fip_rule : TestCaseValidator.Rule :=
  ⟨"isApplyingForFipApplication", true, ["fipPlanSelection"], []⟩

/-- Rows whose last boolean Input for the FIP trigger is `true` (an
earlier `false` is overwritten) and which never mention
`fipPlanSelection`. -/
def fip_trigger_rows : List Row :=
  [[("Group", "Other Products"), ("Element", "isApplyingForFipApplication"),
    ("Action", "Input"), ("Value", "false"), ("Strategy", "id"), ("XPath", "/f")],
   [("Group", "Other Products"), ("Element", "isApplyingForFipApplication"),
    ("Action", "Input"), ("Value", "true"), ("Strategy", "id"), ("XPath", "/f")]]

/-- A first row carrying only two of the six required columns. -/
def two_column_row : Row := [("Group", ""), ("Element", "e")]

/-- A row list in which the Group column is missing altogether, so every
`row.get('Group', '')` is the empty string. -/
def no_group_rows : List Row := [[("Element", "x"), ("Action", "click")]]

/-- Rows whose first (and only) Input row for `isHeadOfGovt` carries the
Value `"FALSE"`, with an earlier click row that would infer `true`. -/
def govt_rows : List Row :=
  [[("Group", "PEP / FATCA"), ("Element", "isHeadOfGovt"), ("Action", "click"),
    ("Value", ""), ("Strategy", "absolute"), ("XPath", "/x/label[1]")],
   [("Group", "PEP / FATCA"), ("Element", "isHeadOfGovt"), ("Action", "Input"),
    ("Value", "FALSE"), ("Strategy", "id"), ("XPath", "/x")]]

end ConcreteInputs

section Lemmas

open TestCaseValidator ScenarioValidator

/-- The empty string is a substring of every character list. -/
theorem containsSub_nil_left (l : List Char) : containsSub [] l = true := by
  cases l <;> rfl

/-- The empty string is a Python substring of every string. -/
theorem strIn_empty_left (s : String) : strIn "" s = true :=
  containsSub_nil_left s.data

/-- Boolean equality on severities agrees with propositional equality. -/
theorem sev_beq_iff (a b : ValidationSeverity) : (a == b) = true ↔ a = b := by
  cases a <;> cases b <;> decide

/-- Boolean equality on check results agrees with propositional equality. -/
theorem res_beq_iff (a b : CheckResult) : (a == b) = true ↔ a = b := by
  cases a <;> cases b <;> decide

end Lemmas

section Claims

open TestCaseValidator ScenarioValidator

/-- C1: with only the click row for `isHeadOfState` whose XPath holds
`label[2]`, `get_boolean_value` returns `false`; adding an Input row with
Value `"true"` — after or before the click row — makes it return `true`,
because the explicit Input value is consulted first. -/
theorem c1_input_overrides_click :
    get_boolean_value [head_of_state_click] "isHeadOfState" = some false
    ∧ get_boolean_value [head_of_state_click, head_of_state_input] "isHeadOfState" = some true
    ∧ get_boolean_value [head_of_state_input, head_of_state_click] "isHeadOfState" = some true := by
  decide

/-- C6: parsing the scenario text yields exactly the five specified
requirement fields (marital status, gender, employment status,
beneficiary flag and count, joint-partner flag and count), all others
unset. -/
theorem c6_parse_scenario_example :
    parse_scenario "Single male, full-time permanent, no beneficiaries, 2 joint partners"
      = { employment_status := some "FULL TIME PERMANENT"
          marital_status := some "SINGLE"
          gender := some "male"
          has_beneficiary := some false
          beneficiary_count := some 0
          has_joint_partner := some true
          joint_partner_count := some 2 } := by
  decide

end Claims

section ContentLemmas

open TestCaseValidator ScenarioValidator

/-- Every finding `content_row_results` emits carries its own row number. -/
theorem content_row_results_row_eq (i : Nat) (r : Row) :
    ∀ v ∈ content_row_results i r, v.row = i := by
  intro v hv
  simp only [content_row_results, List.mem_append] at hv
  rcases hv with ((((hv | hv) | hv) | hv) | hv) <;>
    · revert hv
      split <;> intro hv <;> simp_all

/-- A row contributes no Group warning for a different row number. -/
theorem countP_content_row_ne (i n : Nat) (r : Row) (h : i ≠ n) :
    (content_row_results i r).countP (group_warn_pred n) = 0 := by
  rw [List.countP_eq_zero]
  intro v hv
  have hr := content_row_results_row_eq i r v hv
  simp [group_warn_pred, hr, h]

/-- A row contributes exactly one Group warning for its own row number iff
its Group is non-empty and is a substring of no canonical page name. -/
theorem countP_content_row_self (i : Nat) (r : Row) :
    (content_row_results i r).countP (group_warn_pred i)
      = if rowGetD r "Group" "" != ""
            && !(PAGE_ORDER.any (fun p => strIn (rowGetD r "Group" "") p)) then 1 else 0 := by
  have hA : (("Action" : String) == "Group") = false := by decide
  have hS : (("Strategy" : String) == "Group") = false := by decide
  have hX : (("XPath" : String) == "Group") = false := by decide
  have hV : (("Value" : String) == "Group") = false := by decide
  have hG : (("Group" : String) == "Group") = true := by decide
  have hW : (ValidationSeverity.WARNING == ValidationSeverity.WARNING) = true := by decide
  simp only [content_row_results, List.countP_append]
  repeat' split
  all_goals
    simp_all [group_warn_pred, List.countP_cons, hA, hS, hX, hV, hG, hW]

/-- Rows numbered at or above `k` contribute no Group warning for a row
number below `k`. -/
theorem countP_validate_content_lt (n : Nat) :
    ∀ (rows : List Row) (k : Nat), n < k →
      (concatMap (fun p => content_row_results p.1 p.2) (enumerateFrom k rows)).countP
        (group_warn_pred n) = 0 := by
  intro rows
  induction rows with
  | nil => intro k _; rfl
  | cons r rs ih =>
    intro k hk
    simp only [enumerateFrom, concatMap, List.countP_append]
    rw [countP_content_row_ne k n r (by omega), ih (k + 1) (by omega)]

/-- The number of Group warnings `_validate_content` emits for the row at
position `j` (numbered `k + j`) is 1 or 0 according to that row's Group
value alone. -/
theorem countP_validate_content_at :
    ∀ (rows : List Row) (k j : Nat) (r : Row), rows[j]? = some r →
      (concatMap (fun p => content_row_results p.1 p.2) (enumerateFrom k rows)).countP
          (group_warn_pred (k + j))
        = if rowGetD r "Group" "" != ""
              && !(PAGE_ORDER.any (fun p => strIn (rowGetD r "Group" "") p)) then 1 else 0 := by
  intro rows
  induction rows with
  | nil => intro k j r h; simp at h
  | cons r0 rs ih =>
    intro k j r h
    cases j with
    | zero =>
      simp only [List.getElem?_cons_zero, Option.some.injEq] at h
      subst h
      simp only [enumerateFrom, concatMap, List.countP_append, Nat.add_zero]
      rw [countP_content_row_self, countP_validate_content_lt k rs (k + 1) (by omega),
        Nat.add_zero]
    | succ j2 =>
      simp only [List.getElem?_cons_succ] at h
      simp only [enumerateFrom, concatMap, List.countP_append]
      have hkj : k + (j2 + 1) = (k + 1) + j2 := by omega
      rw [hkj, countP_content_row_ne k ((k + 1) + j2) r0 (by omega), ih (k + 1) j2 r h,
        Nat.zero_add]

end ContentLemmas

section ClaimsC2

open TestCaseValidator ScenarioValidator

/-- C2 counterexample: for the row with Group `"Contact Info Page"` the
content check emits a Group WARNING even though the Group does
substring-match a canonical page name in one of the two directions (it
contains `"Contact Info"`), so the claimed bidirectional condition is
false at this input. -/
theorem c2_counterexample :
    (validate_content [group_cex_row]).countP (group_warn_pred 1) = 1
    ∧ PAGE_ORDER.any (fun p =>
        strIn (rowGetD group_cex_row "Group" "") p
          || strIn p (rowGetD group_cex_row "Group" "")) = true := by
  decide

/-- C2 (amended): for every row whose Group field is non-empty, the
content check emits a WARNING for that row iff the Group is not a
substring of any of the seven canonical page names (the code tests only
containment of the Group inside a page name, not the reverse direction). -/
theorem c2_group_warning_one_directional (rows : List Row) (j : Nat) (r : Row)
    (hj : rows[j]? = some r) (hg : rowGetD r "Group" "" ≠ "") :
    (validate_content rows).countP (group_warn_pred (j + 1))
      = if PAGE_ORDER.any (fun p => strIn (rowGetD r "Group" "") p) then 0 else 1 := by
  have h := countP_validate_content_at rows 1 j r hj
  have hkj : 1 + j = j + 1 := by omega
  rw [hkj] at h
  rw [show validate_content rows
      = concatMap (fun p => content_row_results p.1 p.2) (enumerateFrom 1 rows) from rfl, h]
  have hg2 : (rowGetD r "Group" "" != "") = true := by simpa [bne_iff_ne] using hg
  rw [hg2, Bool.true_and]
  cases hany : PAGE_ORDER.any (fun p => strIn (rowGetD r "Group" "") p) <;> simp

/-- C2 witness: a concrete row with Group `"Nowhere Page"` (matching no
page name) receives exactly one Group WARNING. -/
theorem c2_group_warning_one_directional_witness :
    (validate_content [c2_unknown_group_row]).countP (group_warn_pred 1) = 1 := by
  have h := c2_group_warning_one_directional [c2_unknown_group_row] 0 c2_unknown_group_row
    (by decide) (by decide)
  exact h.trans (by decide)

end ClaimsC2

section SequenceLemmas

open TestCaseValidator ScenarioValidator

/-- The page-resolution loop returns -1 or an index at least its start. -/
theorem page_index_from_cases (g : String) :
    ∀ (ps : List String) (j : Nat),
      page_index_from g j ps = -1 ∨ (j : Int) ≤ page_index_from g j ps := by
  intro ps
  induction ps with
  | nil => intro j; left; rfl
  | cons p ps ih =>
    intro j
    simp only [page_index_from]
    split
    · right; exact le_refl _
    · rcases ih (j + 1) with h | h
      · left; exact h
      · right
        refine le_trans ?_ h
        exact_mod_cast Nat.le_succ j

/-- Every resolved page index is non-negative. -/
theorem resolved_page_indices_nonneg (rows : List Row) :
    ∀ x ∈ resolved_page_indices rows, 0 ≤ x := by
  intro x hx
  simp only [resolved_page_indices, List.mem_filter, List.mem_map] at hx
  obtain ⟨⟨r, _, hr⟩, hne⟩ := hx
  rcases page_index_from_cases (rowGetD r "Group" "") PAGE_ORDER 0 with h | h
  · rw [← hr] at hne
    simp [page_index, h] at hne
  · rw [← hr]
    simpa [page_index] using h

/-- One unfolding step of the sequence-check loop. -/
theorem validate_sequence_from_cons (cur : Int) (i : Nat) (r : Row) (rs : List Row) :
    validate_sequence_from cur i (r :: rs)
      = (if page_index (rowGetD r "Group" "") ≠ -1 ∧ page_index (rowGetD r "Group" "") < cur
         then [⟨.ERROR, i, "Group",
           "Page '" ++ rowGetD r "Group" ""
             ++ "' appears after a later page. Expected order: " ++ PAGE_ORDER_REPR⟩]
         else [])
        ++ validate_sequence_from (seq_step cur (rowGetD r "Group" "")) (i + 1) rs := rfl

/-- If the running maximum chains below the resolved indices of the
remaining rows, the sequence check emits nothing. -/
theorem validate_sequence_from_eq_nil :
    ∀ (rows : List Row) (cur : Int) (i : Nat),
      List.Chain' (· ≤ ·) (cur :: resolved_page_indices rows) →
      validate_sequence_from cur i rows = [] := by
  intro rows
  induction rows with
  | nil => intro cur i _; rfl
  | cons r rs ih =>
    intro cur i hch
    have hres : resolved_page_indices (r :: rs)
        = if (page_index (rowGetD r "Group" "") != -1) = true
          then page_index (rowGetD r "Group" "") :: resolved_page_indices rs
          else resolved_page_indices rs := by
      simp only [resolved_page_indices, List.map_cons, List.filter_cons, page_index]
    rw [validate_sequence_from_cons]
    by_cases hpi : page_index (rowGetD r "Group" "") = -1
    · rw [hres] at hch
      rw [if_neg (by simp [hpi])] at hch
      rw [if_neg (by simp [hpi])]
      have hstep : seq_step cur (rowGetD r "Group" "") = cur := by
        simp [seq_step, hpi]
      rw [hstep]
      simpa using ih cur (i + 1) hch
    · rw [hres] at hch
      rw [if_pos (by simp [hpi])] at hch
      rw [List.chain'_cons] at hch
      obtain ⟨hle, hch2⟩ := hch
      rw [if_neg (by omega)]
      have hstep : seq_step cur (rowGetD r "Group" "") = page_index (rowGetD r "Group" "") := by
        simp only [seq_step]
        rw [if_neg (by simpa using hpi)]
        exact max_eq_right hle
      rw [hstep]
      simpa using ih (page_index (rowGetD r "Group" "")) (i + 1) hch2

end SequenceLemmas

section ClaimsC3

open TestCaseValidator ScenarioValidator

set_option maxRecDepth 4096 in
/-- C3: a row sequence whose resolved page indices (bidirectional
substring match, first canonical page wins, unresolved rows skipped) are
non-decreasing produces zero sequence ERRORs; the concrete sequence with
one inversion (a Documents row after an Additional Details row) produces
exactly the one ERROR at row 3; and the running maximum never decreases. -/
theorem c3_sequence_check (rows : List Row)
    (h : List.Chain' (· ≤ ·) (resolved_page_indices rows)) :
    validate_sequence rows = []
    ∧ validate_sequence seq_inversion_rows = [documents_seq_error]
    ∧ ∀ (cur : Int) (g : String), cur ≤ seq_step cur g := by
  refine ⟨?_, by decide, ?_⟩
  · apply validate_sequence_from_eq_nil
    rw [List.chain'_cons']
    refine ⟨?_, h⟩
    intro y hy
    have := resolved_page_indices_nonneg rows y (List.mem_of_mem_head? hy)
    omega
  · intro cur g
    unfold seq_step
    split
    · exact le_refl cur
    · exact le_max_left _ _

/-- C3 witness: the ordered concrete sequence yields no sequence ERRORs. -/
theorem c3_sequence_check_witness :
    validate_sequence seq_ordered_rows = [] :=
  (c3_sequence_check seq_ordered_rows (by
    rw [show resolved_page_indices seq_ordered_rows = ([0, 2] : List Int) from by decide]
    exact List.chain'_cons.mpr ⟨by norm_num, List.chain'_singleton _⟩)).1

end ClaimsC3

section ConditionalLemmas

open TestCaseValidator ScenarioValidator

/-- `all` over a concatenation of per-element lists. -/
theorem all_concatMap {α β : Type} (f : α → List β) (p : β → Bool) :
    ∀ (l : List α), (∀ a ∈ l, (f a).all p = true) → (concatMap f l).all p = true := by
  intro l
  induction l with
  | nil => intro _; rfl
  | cons x xs ih =>
    intro h
    simp only [concatMap, List.all_append]
    rw [h x (by simp), ih (fun a ha => h a (by simp [ha]))]
    rfl

/-- Every finding a single rule produces is a WARNING. -/
theorem check_rule_all_warning (states : List (String × Bool)) (rows : List Row)
    (rule : Rule) :
    (check_rule states rows rule).all
      (fun v => v.severity == ValidationSeverity.WARNING) = true := by
  unfold check_rule
  cases lookup_state states rule.trigger_field with
  | none => rfl
  | some actual =>
    simp only
    split
    all_goals
      rw [List.all_eq_true]
      intro v hv
      rw [List.mem_filterMap] at hv
      obtain ⟨a, _, ha⟩ := hv
      revert ha
      split <;> intro ha <;>
        first
          | (rw [Option.some.injEq] at ha; subst ha; rfl)
          | simp at ha

end ConditionalLemmas

section ClaimsC4

open TestCaseValidator ScenarioValidator

/-- C4: every finding of the conditional-rule check has WARNING severity,
and the overall verdict of `validate_csv` is exactly the absence of
ERROR-severity findings among the structure, content and sequence checks:
the conditional-rule check can never affect `passed`. -/
theorem c4_conditionals_advisory (rules : List Rule) (rows : List Row) :
    (validate_conditionals rules rows).all
        (fun v => v.severity == ValidationSeverity.WARNING) = true
    ∧ (validate_csv rules rows).1
      = !((validate_structure rows ++ validate_content rows ++ validate_sequence rows).any
          (fun v => v.severity == ValidationSeverity.ERROR)) := by
  have hall : (validate_conditionals rules rows).all
      (fun v => v.severity == ValidationSeverity.WARNING) = true := by
    apply all_concatMap
    intro rule _
    exact check_rule_all_warning _ _ rule
  refine ⟨hall, ?_⟩
  have hnoerr : (validate_conditionals rules rows).any
      (fun v => v.severity == ValidationSeverity.ERROR) = false := by
    cases hany : (validate_conditionals rules rows).any
        (fun v => v.severity == ValidationSeverity.ERROR) with
    | false => rfl
    | true =>
      exfalso
      rw [List.any_eq_true] at hany
      obtain ⟨v, hv, hverr⟩ := hany
      have hw := List.all_eq_true.mp hall v hv
      rw [sev_beq_iff] at hverr hw
      rw [hverr] at hw
      exact absurd hw (by decide)
  have hunfold : (validate_csv rules rows).1
      = !((validate_structure rows ++ validate_content rows ++ validate_sequence rows
          ++ validate_conditionals rules rows).any
            (fun v => v.severity == ValidationSeverity.ERROR)) := rfl
  rw [hunfold, List.any_append, hnoerr, Bool.or_false]

end ClaimsC4

section DictLemmas

open TestCaseValidator ScenarioValidator

/-- Unfolding a state lookup over a cons cell. -/
theorem lookup_state_cons (p : String × Bool) (m : List (String × Bool)) (e : String) :
    lookup_state (p :: m) e = if p.1 = e then some p.2 else lookup_state m e := by
  by_cases h : p.1 = e
  · rw [if_pos h]
    unfold lookup_state
    rw [List.find?_cons_of_pos _ (by simp [h])]
    rfl
  · rw [if_neg h]
    unfold lookup_state
    rw [List.find?_cons_of_neg _ (by simp [h])]

/-- Lookup after the overwrite branch of a dict assignment. -/
theorem lookup_state_map_set (k : String) (v : Bool) (e : String) :
    ∀ (m : List (String × Bool)),
      lookup_state (m.map (fun p => if p.1 == k then (k, v) else p)) e
        = if k = e
          then (if m.any (fun p => p.1 == k) then some v else none)
          else lookup_state m e := by
  intro m
  induction m with
  | nil =>
    by_cases h : k = e <;> simp [lookup_state, h]
  | cons p m ih =>
    rw [List.map_cons, lookup_state_cons, lookup_state_cons, List.any_cons]
    by_cases hp : p.1 = k
    · by_cases he : k = e <;> simp_all
    · by_cases he : k = e
      · simp_all
      · have he2 : ¬e = k := fun h => he h.symm
        simp_all

/-- Lookup after Python dict assignment `m[k] = v`. -/
theorem lookup_state_dict_set (m : List (String × Bool)) (k : String) (v : Bool) (e : String) :
    lookup_state (dict_set m k v) e = if k = e then some v else lookup_state m e := by
  unfold dict_set
  split
  case isTrue hany =>
    rw [lookup_state_map_set k v e m]
    by_cases he : k = e
    · rw [if_pos he, if_pos he, if_pos hany]
    · rw [if_neg he, if_neg he]
  case isFalse hany =>
    unfold lookup_state
    rw [List.find?_append]
    by_cases he : k = e
    · have hm : List.find? (fun p => p.1 == e) m = none := by
        rw [List.find?_eq_none]
        intro p hp
        have := fun hc => hany (List.any_eq_true.mpr ⟨p, hp, hc⟩)
        simp_all [he]
      rw [hm]
      simp [he]
    · have h1 : List.find? (fun p => p.1 == e) [(k, v)] = none := by
        simp [he]
      rw [h1, Option.or_none, if_neg he]

/-- The boolean-state dict built by the fold realises last-occurrence-wins
semantics relative to the initial dict. -/
theorem lookup_state_foldl (e : String) :
    ∀ (rows : List Row) (m : List (String × Bool)),
      lookup_state (rows.foldl (fun m r =>
          let element := rowGetD r "Element" ""
          let action := rowGetD r "Action" ""
          let value := rowGetD r "Value" ""
          if action == "Input" && bool_literal value then
            dict_set m element (pyLower value == "true")
          else m) m) e
        = match last_bool_input rows e with
          | some b => some b
          | none => lookup_state m e := by
  intro rows
  induction rows with
  | nil => intro m; simp [last_bool_input]
  | cons r rows ih =>
    intro m
    rw [List.foldl_cons, ih]
    have hrev : last_bool_input (r :: rows) e
        = match last_bool_input rows e with
          | some b => some b
          | none =>
            if rowGetD r "Element" "" == e && rowGetD r "Action" "" == "Input"
                && bool_literal (rowGetD r "Value" "")
            then some (pyLower (rowGetD r "Value" "") == "true")
            else none := by
      unfold last_bool_input
      rw [List.reverse_cons, List.find?_append]
      cases hA : List.find? (fun r2 =>
          rowGetD r2 "Element" "" == e && rowGetD r2 "Action" "" == "Input"
            && bool_literal (rowGetD r2 "Value" "")) rows.reverse with
      | some a => simp [Option.or]
      | none =>
        simp only [Option.none_or]
        by_cases hq : (rowGetD r "Element" "" == e && rowGetD r "Action" "" == "Input"
            && bool_literal (rowGetD r "Value" "")) = true <;>
          simp [List.find?_cons, hq]
    rw [hrev]
    cases hB : last_bool_input rows e with
    | some b => rfl
    | none =>
      show lookup_state (if rowGetD r "Action" "" == "Input" && bool_literal (rowGetD r "Value" "")
          then dict_set m (rowGetD r "Element" "") (pyLower (rowGetD r "Value" "") == "true")
          else m) e = _
      by_cases hcond : (rowGetD r "Action" "" == "Input"
          && bool_literal (rowGetD r "Value" "")) = true
      · rw [if_pos hcond, lookup_state_dict_set]
        by_cases hel : rowGetD r "Element" "" = e
        · rw [if_pos hel]
          have hq : (rowGetD r "Element" "" == e && rowGetD r "Action" "" == "Input"
              && bool_literal (rowGetD r "Value" "")) = true := by
            have h12 : (rowGetD r "Action" "" == "Input") = true
                ∧ bool_literal (rowGetD r "Value" "") = true := by simpa using hcond
            simp [hel, h12.1, h12.2]
          rw [if_pos hq]
        · rw [if_neg hel]
          have hq : (rowGetD r "Element" "" == e && rowGetD r "Action" "" == "Input"
              && bool_literal (rowGetD r "Value" "")) = false := by
            have h0 : (rowGetD r "Element" "" == e) = false := by
              simpa using hel
            rw [Bool.and_assoc, h0, Bool.false_and]
          rw [if_neg (by simp [hq])]
      · rw [if_neg hcond]
        have hbc : (rowGetD r "Action" "" == "Input"
            && bool_literal (rowGetD r "Value" "")) = false :=
          Bool.eq_false_iff.mpr hcond
        have hq : (rowGetD r "Element" "" == e && rowGetD r "Action" "" == "Input"
            && bool_literal (rowGetD r "Value" "")) = false := by
          rw [Bool.and_assoc, hbc, Bool.and_false]
        rw [if_neg (by simp [hq])]

/-- The code's boolean-state dict lookup is exactly the spec's
last-occurrence-wins reading. -/
theorem boolean_states_last_wins (rows : List Row) (e : String) :
    lookup_state (boolean_states rows) e = last_bool_input rows e := by
  have h := lookup_state_foldl e rows []
  rw [show boolean_states rows
      = rows.foldl (fun m r =>
          let element := rowGetD r "Element" ""
          let action := rowGetD r "Action" ""
          let value := rowGetD r "Value" ""
          if action == "Input" && bool_literal value then
            dict_set m element (pyLower value == "true")
          else m) [] from rfl, h]
  cases last_bool_input rows e <;> rfl

end DictLemmas

section ClaimsC5

open TestCaseValidator ScenarioValidator

/-- C5: with the single FIP rule, when the last boolean Input recorded for
`isApplyingForFipApplication` is `true` (last occurrence in row order
wins, as the second conjunct ties the code's dict to the
last-occurrence reading), the conditional-rule check emits exactly one
WARNING on field `fipPlanSelection` if no row's Element is
`fipPlanSelection`, and none if some row's Element is. -/
theorem c5_fip_rule_warning (rows : List Row)
    (h : last_bool_input rows "isApplyingForFipApplication" = some true) :
    (validate_conditionals [fip_rule] rows).countP
        (fun v => v.severity == ValidationSeverity.WARNING && v.field == "fipPlanSelection")
      = (if present_in_rows rows "fipPlanSelection" then 0 else 1)
    ∧ lookup_state (boolean_states rows) "isApplyingForFipApplication" = some true := by
  have hlw := boolean_states_last_wins rows "isApplyingForFipApplication"
  rw [h] at hlw
  refine ⟨?_, hlw⟩
  have hcat : validate_conditionals [fip_rule] rows
      = check_rule (boolean_states rows) rows fip_rule ++ [] := rfl
  rw [hcat, List.append_nil]
  unfold check_rule
  rw [show fip_rule.trigger_field = "isApplyingForFipApplication" from rfl, hlw]
  rw [show fip_rule.trigger_value = true from rfl,
    show fip_rule.required_fields = ["fipPlanSelection"] from rfl]
  by_cases hpres : present_in_rows rows "fipPlanSelection" = true
  · simp [hpres]
  · simp only [Bool.not_eq_true] at hpres
    simp [hpres]
    decide

/-- C5 witness: two FIP-trigger Inputs, `false` then `true`, and no
`fipPlanSelection` row yield exactly one such WARNING. -/
theorem c5_fip_rule_warning_witness :
    (validate_conditionals [fip_rule] fip_trigger_rows).countP
        (fun v => v.severity == ValidationSeverity.WARNING && v.field == "fipPlanSelection")
      = 1 := by
  have h := c5_fip_rule_warning fip_trigger_rows (by decide)
  exact h.1.trans (by decide)

end ClaimsC5

section StructureLemmas

open TestCaseValidator ScenarioValidator

/-- Counting the missing-column ERRORs for one column equals counting that
column among the missing ones (`f` is the column-present test). -/
theorem countP_validate_structure (f : String → Bool) (col : String) :
    ∀ (cols : List String),
      (cols.filterMap (fun c =>
          if f c then none
          else some (⟨.ERROR, 0, c, "Missing required column: " ++ c⟩ : ValidationResult))).countP
          (fun v => v.field == col && v.severity == ValidationSeverity.ERROR)
        = (cols.filter (fun c => !(f c))).countP (fun c => c == col) := by
  intro cols
  induction cols with
  | nil => rfl
  | cons c cols ih =>
    have hE : (ValidationSeverity.ERROR == ValidationSeverity.ERROR) = true := rfl
    rw [List.filterMap_cons, List.filter_cons]
    by_cases hc : f c = true <;>
      simp [hc, ih, List.countP_cons, hE, Bool.and_true]

/-- Counting occurrences of one value inside a filtered list. -/
theorem countP_beq_filter (col : String) (q : String → Bool) :
    ∀ (l : List String),
      (l.filter q).countP (fun c => c == col)
        = if q col then l.countP (fun c => c == col) else 0 := by
  intro l
  induction l with
  | nil => cases hq : q col <;> simp [hq]
  | cons c l ih =>
    rw [List.filter_cons]
    by_cases hcc : c = col
    · subst hcc
      by_cases hq : q c = true
      · rw [if_pos hq]
        simp [List.countP_cons, ih, hq]
      · simp only [Bool.not_eq_true] at hq
        simp [hq, ih, List.countP_cons]
    · have hf : (c == col) = false := by simpa using hcc
      by_cases hq : q c = true <;>
        simp [hq, ih, List.countP_cons, hf]

/-- Each required column occurs exactly once in `REQUIRED_COLUMNS`. -/
theorem countP_required_one (col : String) (h : col ∈ REQUIRED_COLUMNS) :
    REQUIRED_COLUMNS.countP (fun c => c == col) = 1 := by
  fin_cases h <;> decide

end StructureLemmas

section ClaimsC7

open TestCaseValidator ScenarioValidator

/-- C7: on a non-empty row sequence the structure check emits exactly one
ERROR for each required column missing from the first row's key set (and
none for a present column); if some required column is missing, the
overall verdict of `validate_csv` is false; and the structure check
depends only on the first row, never on the later rows. -/
theorem c7_structure_missing_columns (r : Row) (rs : List Row) (rules : List Rule) :
    (∀ col ∈ REQUIRED_COLUMNS,
        (validate_structure (r :: rs)).countP
            (fun v => v.field == col && v.severity == ValidationSeverity.ERROR)
          = if (rowKeys r).contains col then 0 else 1)
    ∧ ((∃ col ∈ REQUIRED_COLUMNS, (rowKeys r).contains col = false) →
        (validate_csv rules (r :: rs)).1 = false)
    ∧ (∀ rs2 : List Row, validate_structure (r :: rs) = validate_structure (r :: rs2)) := by
  have hmain : ∀ col ∈ REQUIRED_COLUMNS,
      (validate_structure (r :: rs)).countP
          (fun v => v.field == col && v.severity == ValidationSeverity.ERROR)
        = if (rowKeys r).contains col then 0 else 1 := by
    intro col hcol
    have h1 : validate_structure (r :: rs)
        = REQUIRED_COLUMNS.filterMap (fun c =>
            if (rowKeys r).contains c then none
            else some ⟨.ERROR, 0, c, "Missing required column: " ++ c⟩) := rfl
    rw [h1, countP_validate_structure (fun c => (rowKeys r).contains c) col REQUIRED_COLUMNS,
      countP_beq_filter col (fun c => !((rowKeys r).contains c)) REQUIRED_COLUMNS]
    cases hc : (rowKeys r).contains col <;>
      simp [countP_required_one col hcol]
  refine ⟨hmain, ?_, fun rs2 => rfl⟩
  rintro ⟨col, hcol, hmiss⟩
  have h1 := hmain col hcol
  rw [hmiss] at h1
  simp only [Bool.false_eq_true, if_false] at h1
  have hpos : 0 < (validate_structure (r :: rs)).countP
      (fun v => v.field == col && v.severity == ValidationSeverity.ERROR) := by
    rw [h1]
    norm_num
  obtain ⟨v, hv, hp⟩ := List.countP_pos_iff.mp hpos
  have hp2 : (v.severity == ValidationSeverity.ERROR) = true := by
    have h3 : (v.field == col) = true ∧ (v.severity == ValidationSeverity.ERROR) = true := by
      simpa using hp
    exact h3.2
  have hany : (validate_structure (r :: rs)).any
      (fun v => v.severity == ValidationSeverity.ERROR) = true :=
    List.any_eq_true.mpr ⟨v, hv, hp2⟩
  have hunfold : (validate_csv rules (r :: rs)).1
      = !((validate_structure (r :: rs) ++ validate_content (r :: rs)
          ++ validate_sequence (r :: rs) ++ validate_conditionals rules (r :: rs)).any
            (fun v => v.severity == ValidationSeverity.ERROR)) := rfl
  rw [hunfold, List.any_append, List.any_append, List.any_append, hany]
  rfl

/-- C7 witness: the first row carrying only Group and Element receives one
ERROR for the missing Action column and fails overall validation. -/
theorem c7_structure_missing_columns_witness :
    (validate_structure [two_column_row]).countP
        (fun v => v.field == "Action" && v.severity == ValidationSeverity.ERROR) = 1
    ∧ (validate_csv [] [two_column_row]).1 = false := by
  refine ⟨?_, ?_⟩
  · exact ((c7_structure_missing_columns two_column_row [] []).1 "Action"
      (by decide)).trans (by decide)
  · exact (c7_structure_missing_columns two_column_row [] []).2.1
      ⟨"Action", by decide, by decide⟩

end ClaimsC7

section ClaimsC8

open TestCaseValidator ScenarioValidator

/-- C8: the scenario validator passes iff no emitted check has result
FAIL; the OTP check is the last emitted check, its result is PASS when
`count_element_occurrences rows "otp-input-0"` is at least 2 and WARN
otherwise, and it is never FAIL — so a low OTP count alone cannot fail
the validation. -/
theorem c8_scenario_passed_iff (rows : List Row) (scenario : String) :
    ((ScenarioValidator.validate rows scenario).1 = true ↔
      (ScenarioValidator.validate rows scenario).2.countP
        (fun c => c.result == CheckResult.FAIL) = 0)
    ∧ (ScenarioValidator.validate rows scenario).2.getLast? = some (otp_check rows)
    ∧ ((otp_check rows).result
        = if 2 ≤ count_element_occurrences rows "otp-input-0" then CheckResult.PASS
          else CheckResult.WARN)
    ∧ (otp_check rows).result ≠ CheckResult.FAIL := by
  refine ⟨?_, ?_, rfl, ?_⟩
  · have h1 : (ScenarioValidator.validate rows scenario).1
        = ((scenario_checks rows scenario).countP
            (fun c => c.result == CheckResult.FAIL) == 0) := rfl
    have h2 : (ScenarioValidator.validate rows scenario).2
        = scenario_checks rows scenario := rfl
    rw [h1, h2]
    exact beq_iff_eq
  · exact List.getLast?_concat _
  · have h3 : (otp_check rows).result
        = if 2 ≤ count_element_occurrences rows "otp-input-0" then CheckResult.PASS
          else CheckResult.WARN := rfl
    rw [h3]
    split <;> decide

end ClaimsC8

section ClaimsC9

open TestCaseValidator ScenarioValidator

/-- C9: if any row's Group value defaults to the empty string (in
particular when the Group column is absent), the empty string
substring-matches every expected page, so the page-coverage check finds
no missing page, reports 6/6 coverage and results PASS regardless of the
other rows. -/
theorem c9_empty_group_covers_all_pages (rows : List Row) (scenario : String)
    (h : rows.any (fun r => rowGetD r "Group" "" == "") = true) :
    missing_pages rows = []
    ∧ (ScenarioValidator.validate rows scenario).2[1]? = some (page_coverage_check rows)
    ∧ (page_coverage_check rows).result = CheckResult.PASS
    ∧ (page_coverage_check rows).actual = "6/6 pages" := by
  obtain ⟨r, hr, hg⟩ := List.any_eq_true.mp h
  have hg2 : rowGetD r "Group" "" = "" := by simpa using hg
  have hcov : ∀ ep : String, page_covered rows ep = true := by
    intro ep
    apply List.any_eq_true.mpr
    refine ⟨r, hr, ?_⟩
    show (strIn (pyLower ep) (pyLower (rowGetD r "Group" ""))
        || strIn (pyLower (rowGetD r "Group" "")) (pyLower ep)) = true
    rw [hg2, show pyLower "" = "" from rfl, strIn_empty_left, Bool.or_true]
  have hmiss : missing_pages rows = [] := by
    simp [missing_pages, hcov]
  have hcovlen : covered_pages rows = expected_pages := by
    simp [covered_pages, hcov]
  refine ⟨hmiss, ?_, ?_, ?_⟩
  · show (scenario_checks rows scenario)[1]? = some (page_coverage_check rows)
    simp [scenario_checks]
  · have h3 : (page_coverage_check rows).result
        = if (missing_pages rows).isEmpty then CheckResult.PASS else CheckResult.FAIL := rfl
    rw [h3, hmiss]
    rfl
  · have h4 : (page_coverage_check rows).actual
        = Nat.repr (covered_pages rows).length ++ "/6 pages" := rfl
    rw [h4, hcovlen]
    decide

/-- C9 witness: a single row without a Group key covers all six pages. -/
theorem c9_empty_group_covers_all_pages_witness :
    missing_pages no_group_rows = []
    ∧ (ScenarioValidator.validate no_group_rows "").2[1]?
        = some (page_coverage_check no_group_rows)
    ∧ (page_coverage_check no_group_rows).result = CheckResult.PASS
    ∧ (page_coverage_check no_group_rows).actual = "6/6 pages" :=
  c9_empty_group_covers_all_pages no_group_rows "" (by decide)

end ClaimsC9

section ClaimsC10

open TestCaseValidator ScenarioValidator

/-- C10: whenever some row has the element with Action `Input` (and that
first such row carries a Value cell), `get_boolean_value` returns a set
boolean determined solely by that first Input row's Value — true exactly
when it lowercases to `"true"`, false for every other Value — and in
particular never falls through to the click-row scan. -/
theorem c10_input_first_boolean (rows : List Row) (e : String) (r0 : Row) (v : String)
    (h1 : rows.find? (fun r =>
        rowGet? r "Element" == some e && rowGet? r "Action" == some "Input") = some r0)
    (h2 : rowGet? r0 "Value" = some v) :
    get_boolean_value rows e = some (pyLower v == "true") := by
  unfold get_boolean_value get_field_value
  simp only [h1, h2]

/-- C10 witness: an Input row with Value `"FALSE"` yields `some false`
even though an earlier click row would have inferred `true`. -/
theorem c10_input_first_boolean_witness :
    get_boolean_value govt_rows "isHeadOfGovt" = some false := by
  have h := c10_input_first_boolean govt_rows "isHeadOfGovt"
    [("Group", "PEP / FATCA"), ("Element", "isHeadOfGovt"), ("Action", "Input"),
     ("Value", "FALSE"), ("Strategy", "id"), ("XPath", "/x")] "FALSE" (by decide) (by decide)
  exact h.trans (by decide)

end ClaimsC10
